import Mathlib

namespace Text2SQL

/-!
Verification of the text2sql backend (Python) against its specification.

Shallow embedding: each Python function used by the checked properties is
translated into an executable Lean definition over `List Char` / `String`.
Async calls into the database or an LLM are modelled as explicit parameters
(an `Except` value for a call that can raise, an oracle function for the
permission store), mirroring the control flow of the Python source.

Modelling conventions:
* Python `str.upper()` / `str.lower()` are modelled per character with
  `Char.toUpper` / `Char.toLower` (ASCII case mapping, adequate for SQL text).
* The regex word class `\w` is modelled as ASCII alphanumerics, `_`, and any
  non-ASCII character (Korean text in messages counts as word characters, as
  under Python's Unicode-aware `\w`).
* Python `\s` and `str.strip()` whitespace is the ASCII whitespace set.
-/

/-- ASCII whitespace as matched by Python `\s` and stripped by `str.strip()`. -/
def pyIsSpace (c : Char) : Bool :=
  c = ' ' || c = '\t' || c = '\n' || c = '\r' || c = '\x0b' || c = '\x0c'

/-- Python `str.strip()`: drop leading and trailing whitespace. -/
def pyStrip (l : List Char) : List Char :=
  ((l.dropWhile pyIsSpace).reverse.dropWhile pyIsSpace).reverse

/-- Python `str.upper()` (ASCII case mapping). -/
def pyUpper (l : List Char) : List Char := l.map Char.toUpper

/-- Python `str.lower()` (ASCII case mapping). -/
def pyLower (l : List Char) : List Char := l.map Char.toLower

/-- Regex `\w`: ASCII alphanumerics, underscore, and non-ASCII characters. -/
def isWordChar (c : Char) : Bool :=
  c.isAlphanum || c = '_' || c.val ≥ 128

/-- Python substring containment `needle in hay`. -/
def containsSubstr (needle : List Char) : List Char → Bool
  | [] => needle.isEmpty
  | c :: rest => needle.isPrefixOf (c :: rest) || containsSubstr needle rest

/-- Insert an element at the end unless already present (set-insertion order). -/
def insertUnique [BEq α] (xs : List α) (x : α) : List α :=
  if xs.contains x then xs else xs ++ [x]

/-- Deduplicate a list keeping the first occurrence of each element. -/
def dedupKeepFirst [BEq α] (l : List α) : List α :=
  l.foldl insertUnique []

/-!
## Keyword validator (`app/validation/keyword_validator.py`)
-/

/-- Source `DANGEROUS_KEYWORDS` from `keyword_validator.py`, in source order. -/
def DANGEROUS_KEYWORDS : List String :=
  ["UPDATE", "DELETE", "INSERT", "TRUNCATE", "MERGE", "UPSERT",
   "DROP", "ALTER", "CREATE", "RENAME",
   "GRANT", "REVOKE",
   "EXEC", "EXECUTE", "CALL",
   "COPY", "VACUUM", "ANALYZE", "REINDEX", "CLUSTER", "REFRESH",
   "COMMIT", "ROLLBACK", "SAVEPOINT",
   "SET", "RESET", "LOAD"]

/-- Source `KeywordValidationResult` dataclass. -/
structure KeywordValidationResult where
  is_valid : Bool
  detected_keywords : List String
  error_message : String
deriving Repr, DecidableEq

/-- Removal of `--` line comments (regex `--[^\n]*`): from each `--` the rest of
the line is dropped; the newline itself is kept.  The Bool flag records whether
the scanner is currently inside a line comment. -/
def removeLineCommentsAux : Bool → List Char → List Char
  | _, [] => []
  | false, '-' :: '-' :: rest => removeLineCommentsAux true rest
  | false, c :: rest => c :: removeLineCommentsAux false rest
  | true, '\n' :: rest => '\n' :: removeLineCommentsAux false rest
  | true, _ :: rest => removeLineCommentsAux true rest

def removeLineComments (l : List Char) : List Char := removeLineCommentsAux false l

/-- Scan for the earliest closing `*/`; return the suffix after it, if any. -/
def afterBlockClose : List Char → Option (List Char)
  | [] => none
  | c :: rest =>
    if c = '*' ∧ rest.head? = some '/' then some rest.tail
    else afterBlockClose rest

/-- Removal of `/* */` block comments (non-greedy regex `/\*[\s\S]*?\*/`).
An unterminated `/*` does not match, so its characters are kept.  The scan
consumes at least one character per step, so `l.length + 1` fuel always
suffices (structural recursion on the fuel keeps the function kernel-reducible). -/
def removeBlockCommentsFuel : Nat → List Char → List Char
  | 0, l => l
  | _ + 1, [] => []
  | fuel + 1, '/' :: '*' :: rest =>
    match afterBlockClose rest with
    | some r => removeBlockCommentsFuel fuel r
    | none => '/' :: removeBlockCommentsFuel fuel ('*' :: rest)
  | fuel + 1, c :: rest => c :: removeBlockCommentsFuel fuel rest

def removeBlockComments (l : List Char) : List Char :=
  removeBlockCommentsFuel (l.length + 1) l

/-- Source `KeywordValidator._remove_comments`: `--` comments first, then `/* */`. -/
def remove_comments (l : List Char) : List Char :=
  removeBlockComments (removeLineComments l)

/-- Maximal runs of word characters.  The validator's regex
`\b(KW1|KW2|...)\b` (case-insensitive) matches exactly those maximal word-char
runs that are equal, up to case, to one of the keywords: each keyword is purely
alphabetic, and the surrounding `\b` anchors force the match to cover a whole
run.  `wordTokensAux` carries the (reversed) run being accumulated. -/
def wordTokensAux (cur : List Char) : List Char → List (List Char)
  | [] => if cur.isEmpty then [] else [cur.reverse]
  | c :: rest =>
    if isWordChar c then wordTokensAux (c :: cur) rest
    else if cur.isEmpty then wordTokensAux [] rest
    else cur.reverse :: wordTokensAux [] rest

def wordTokens (l : List Char) : List (List Char) := wordTokensAux [] l

/-- The word tokens of the (comment-stripped) query that are denylisted
keywords; `pattern.findall` returns exactly these. -/
def dangerousTokens (l : List Char) : List (List Char) :=
  (wordTokens l).filter (fun t => DANGEROUS_KEYWORDS.contains (String.mk (pyUpper t)))

/-- Source `KeywordValidator._generate_error_message`. -/
def generate_error_message (keywords : List String) : String :=
  match keywords with
  | [k] => "조회 요청만 가능합니다. 데이터 수정(" ++ k ++ ")은 지원되지 않습니다."
  | _ =>
    "조회 요청만 가능합니다. 데이터 수정(" ++ String.intercalate ", " keywords
      ++ ")은 지원되지 않습니다."

/-- Source `KeywordValidator.validate` of the default validator (the module singleton
built with no `additional_keywords`).  Comments are removed; quoted string
literals are NOT removed (the source deliberately scans them too — see the
inline comments at `keyword_validator.py` lines 115-117). -/
def KeywordValidator.validate (query : String) : KeywordValidationResult :=
  if (pyStrip query.data).isEmpty then
    ⟨false, [], "쿼리가 비어있습니다."⟩
  else
    let cleaned := remove_comments query.data
    let detected := dedupKeepFirst
      ((dangerousTokens cleaned).map (fun t => String.mk (pyUpper t)))
    if detected.isEmpty then
      let normalized := pyUpper (pyStrip cleaned)
      if ("SELECT".data.isPrefixOf normalized || "WITH".data.isPrefixOf normalized) then
        ⟨true, [], ""⟩
      else
        ⟨false, [], "조회(SELECT) 쿼리만 허용됩니다."⟩
    else
      ⟨false, detected, generate_error_message detected⟩

/-!
## Safe query executor (`app/database/executor.py`)

`execute_safe_query` is async and talks to PostgreSQL; the embedding keeps its
deterministic parts.  The rows fetched by `conn.fetch(query)` are a parameter
(an arbitrary list over an arbitrary row type), and `_sanitize_row_values` is a
parameter function on rows (it maps each row independently, which is all the
checked properties depend on).  Wall-clock fields (`execution_time_ms`,
`executed_at`) and the column-type inference (`_infer_column_type`, which
introspects Python runtime types) are not modelled; no claim mentions them.
-/

/-- The executor's `DANGEROUS_KEYWORDS` frozenset (source literal order). -/
def EXECUTOR_DANGEROUS_KEYWORDS : List String :=
  ["UPDATE", "DELETE", "INSERT", "DROP", "ALTER", "TRUNCATE",
   "GRANT", "REVOKE", "CREATE", "MODIFY", "EXEC", "EXECUTE"]

/-- The only exception the executor's pre-checks can raise. -/
inductive ExecutorError where
  | dangerousQuery (keyword : String)
deriving Repr, DecidableEq

/-- Source `_quick_safety_check`: raise `DangerousQueryError(keyword)` when
`" KEYWORD "` occurs in `" QUERY_UPPER "`.  Which keyword is reported when
several match depends on Python's unspecified frozenset iteration order; the
embedding uses the source literal order. -/
def quick_safety_check (query : String) : Except ExecutorError Unit :=
  let padded := ' ' :: pyUpper query.data ++ [' ']
  match EXECUTOR_DANGEROUS_KEYWORDS.find?
      (fun kw => containsSubstr (' ' :: kw.data ++ [' ']) padded) with
  | some kw => .error (.dangerousQuery kw)
  | none => .ok ()

/-- Source `QueryResult` — the fields of the Pydantic model that
`execute_safe_query` computes from the fetched rows. -/
structure QueryResultM (Row : Type) where
  rows : List Row
  total_row_count : Nat
  returned_row_count : Nat
  is_truncated : Bool
deriving Repr

/-- Lines 154-189 of `executor.py`: count, truncate post-fetch, sanitize. -/
def processFetchedRows {Row : Type} (sanitize : Row → Row)
    (fetched : List Row) (maxRowLimit : Nat) : QueryResultM Row :=
  let total_count := fetched.length
  let is_truncated := decide (total_count > maxRowLimit)
  let rows := if is_truncated then fetched.take maxRowLimit else fetched
  let result_rows := rows.map sanitize
  ⟨result_rows, total_count, result_rows.length, is_truncated⟩

/-- Source `execute_safe_query(query, ...)` with the fetched rows supplied as a
parameter: quick keyword check, then the SELECT-only gate, then row handling. -/
def execute_safe_query {Row : Type} (sanitize : Row → Row) (query : String)
    (fetched : List Row) (maxRowLimit : Nat) :
    Except ExecutorError (QueryResultM Row) :=
  match quick_safety_check query with
  | .error e => .error e
  | .ok () =>
    let query_stripped := pyUpper (pyStrip query.data)
    if "SELECT".data.isPrefixOf query_stripped then
      .ok (processFetchedRows sanitize fetched maxRowLimit)
    else
      .error (.dangerousQuery "NON_SELECT")

/-- A CTE query: accepted by the keyword validator (which allows a leading
`WITH`), rejected by the executor (which demands a leading `SELECT`). -/
def cteQuery : String :=
  "WITH recent AS (SELECT id FROM orders) SELECT id FROM recent"

/-!
## Semantic validator (`app/validation/semantic_validator.py`)

Confidence scores are Python floats; they are modelled as rationals (the
parsed decimal literals are exact in both).  The LLM call `llm.ainvoke` is the
only operation inside `validate_query_semantic`'s `try` block that can raise;
it is modelled as an `Except String String` parameter carrying either the
response text or the raised error's message.
-/

/-- Source `SemanticValidationResult` dataclass. -/
structure SemanticValidationResult where
  is_valid : Bool
  is_dangerous : Bool
  confidence : ℚ
  reason : Option String
  suggestions : List String
  error_message : Option String

/-- Split on a separator character (Python `str.split(sep)`). -/
def splitOnCharAux (sep : Char) (cur : List Char) : List Char → List (List Char)
  | [] => [cur.reverse]
  | c :: rest =>
    if c = sep then cur.reverse :: splitOnCharAux sep [] rest
    else splitOnCharAux sep (c :: cur) rest

def splitOnChar (sep : Char) (l : List Char) : List (List Char) :=
  splitOnCharAux sep [] l

/-- Python `str.replace(old, new)`: non-overlapping left-to-right replacement
(fuelled; `old` is never empty at the call sites). -/
def pyReplaceFuel (old new : List Char) : Nat → List Char → List Char
  | 0, l => l
  | _ + 1, [] => []
  | fuel + 1, c :: rest =>
    if old.isPrefixOf (c :: rest) then
      new ++ pyReplaceFuel old new fuel ((c :: rest).drop old.length)
    else
      c :: pyReplaceFuel old new fuel rest

def pyReplace (old new l : List Char) : List Char :=
  pyReplaceFuel old new (l.length + 1) l

def digitsToNat (ds : List Char) : Nat :=
  ds.foldl (fun a c => a * 10 + (c.toNat - 48)) 0

/-- Python `float(s)` on decimal notation, as an exact rational: optional sign,
digits with optional fraction and exponent (`inf`/`nan` and the binary
rounding of the result are not modelled; no checked property depends on them).
`none` models the `ValueError` branch. -/
def pythonFloat? (s : List Char) : Option ℚ :=
  let t := pyStrip s
  let signed : ℚ × List Char :=
    match t with
    | '+' :: r => (1, r)
    | '-' :: r => (-1, r)
    | r => (1, r)
  let sign := signed.1
  let t1 := signed.2
  let intPart := t1.takeWhile Char.isDigit
  let t2 := t1.dropWhile Char.isDigit
  let fraced : List Char × List Char :=
    match t2 with
    | '.' :: r => (r.takeWhile Char.isDigit, r.dropWhile Char.isDigit)
    | r => ([], r)
  let fracPart := fraced.1
  let t3 := fraced.2
  if intPart.isEmpty && fracPart.isEmpty then none
  else
    let mantissa : ℚ :=
      (digitsToNat intPart : ℚ) + (digitsToNat fracPart : ℚ) / (10 ^ fracPart.length : ℚ)
    match t3 with
    | [] => some (sign * mantissa)
    | e :: r =>
      if e = 'e' || e = 'E' then
        let esigned : Int × List Char :=
          match r with
          | '+' :: rr => (1, rr)
          | '-' :: rr => (-1, rr)
          | rr => (1, rr)
        let eds := esigned.2.takeWhile Char.isDigit
        let r2 := esigned.2.dropWhile Char.isDigit
        if eds.isEmpty || !r2.isEmpty then none
        else some (sign * mantissa * (10 : ℚ) ^ (esigned.1 * digitsToNat eds))
      else none

/-- Parser state while scanning the LLM reply line by line. -/
structure ParseState where
  verdict : List Char
  confidence : ℚ
  reason : List Char
  suggestions : List (List Char)

/-- Source `_parse_llm_response`: scan the stripped reply lines for
`VERDICT:` / `CONFIDENCE:` / `REASON:` / `SUGGESTIONS:` headers (later
occurrences overwrite earlier ones, suggestions accumulate), then derive
validity and danger from the verdict and confidence. -/
def parse_llm_response (response_text : String) : SemanticValidationResult :=
  let lines := splitOnChar '\n' (pyStrip response_text.data)
  let st := lines.foldl (fun (st : ParseState) rawLine =>
    let line := pyStrip rawLine
    if "VERDICT:".data.isPrefixOf line then
      { st with verdict := pyUpper (pyStrip (pyReplace "VERDICT:".data [] line)) }
    else if "CONFIDENCE:".data.isPrefixOf line then
      let cstr := pyStrip (pyReplace "CONFIDENCE:".data [] line)
      { st with confidence := (pythonFloat? cstr).getD (1/2 : ℚ) }
    else if "REASON:".data.isPrefixOf line then
      { st with reason := pyStrip (pyReplace "REASON:".data [] line) }
    else if "SUGGESTIONS:".data.isPrefixOf line then
      let s := pyStrip (pyReplace "SUGGESTIONS:".data [] line)
      if s.isEmpty then st else { st with suggestions := st.suggestions ++ [s] }
    else st)
    ⟨"REJECT".data, 0, [], []⟩
  let is_valid := st.verdict = "APPROVE".data
  let is_dangerous := st.verdict = "REJECT".data && decide (st.confidence ≥ (4/5 : ℚ))
  { is_valid := is_valid
    is_dangerous := is_dangerous
    confidence := st.confidence
    reason := some (String.mk st.reason)
    suggestions := st.suggestions.map String.mk
    error_message :=
      if is_valid then none
      else if st.reason.isEmpty then some "쿼리가 보안 검증을 통과하지 못했습니다."
      else some (String.mk st.reason) }

/-- Source `validate_query_semantic`: on a successful LLM call parse the reply; on
any raised error fail open with a valid, non-dangerous result.  The query and
user question only shape the prompt sent to the LLM, so they do not influence
the result once the LLM's reply (or error) is given. -/
def validate_query_semantic (_query : String) (_user_question : Option String)
    (llmResponseText : Except String String) : SemanticValidationResult :=
  match llmResponseText with
  | .ok txt => parse_llm_response txt
  | .error e =>
    { is_valid := true
      is_dangerous := false
      confidence := 0
      reason := some ("시맨틱 검증 중 오류 발생: " ++ e)
      suggestions := []
      error_message := none }

/-- Source `system_table_patterns` from `validate_query_semantic_sync`. -/
def system_table_patterns : List String :=
  ["PG_CATALOG", "INFORMATION_SCHEMA", "PG_STAT", "PG_CLASS",
   "PG_ROLES", "PG_USER", "PG_SHADOW"]

/-- Source `sensitive_columns` from `validate_query_semantic_sync`. -/
def sensitive_columns : List String :=
  ["PASSWORD", "PASSWD", "SECRET", "TOKEN", "API_KEY", "APIKEY",
   "PRIVATE_KEY", "CREDIT_CARD", "SSN", "SOCIAL_SECURITY"]

/-- The per-column trigger of the sensitive-column loop: the outer guard
`"SELECT" in q and col in q` and the inner guard
`"SELECT " in q or ", col" in q`, all on the upper-cased query.  (It fires on
any occurrence of the column name anywhere in the query, not only in the
projection list.) -/
def sensitiveHit (qU : List Char) (col : String) : Bool :=
  (containsSubstr "SELECT".data qU && containsSubstr col.data qU) &&
  (containsSubstr "SELECT ".data qU || containsSubstr (", ".data ++ col.data) qU)

/-- Source `validate_query_semantic_sync`: the rule-based pre-filter run without an
LLM — system-table substrings, sensitive-column mentions, and more than one
semicolon. -/
def validate_query_semantic_sync (query : String) (_user_question : Option String) :
    SemanticValidationResult :=
  let qU := pyUpper query.data
  match system_table_patterns.find? (fun p => containsSubstr p.data qU) with
  | some p =>
    { is_valid := false, is_dangerous := true, confidence := (95/100 : ℚ)
      reason := some ("시스템 테이블(" ++ p ++ ") 접근이 감지되었습니다.")
      suggestions := ["일반 테이블만 조회해주세요."]
      error_message := some "시스템 테이블 접근은 허용되지 않습니다." }
  | none =>
    match sensitive_columns.find? (fun col => sensitiveHit qU col) with
    | some col =>
      { is_valid := false, is_dangerous := true, confidence := (9/10 : ℚ)
        reason := some ("민감 정보 컬럼(" ++ col ++ ") 직접 조회가 감지되었습니다.")
        suggestions := ["민감 정보는 직접 조회할 수 없습니다."]
        error_message := some "민감 정보 컬럼은 조회할 수 없습니다." }
    | none =>
      if query.data.count ';' > 1 then
        { is_valid := false, is_dangerous := true, confidence := (95/100 : ℚ)
          reason := some "다중 쿼리 실행 시도가 감지되었습니다."
          suggestions := ["한 번에 하나의 쿼리만 실행해주세요."]
          error_message := some "다중 쿼리 실행은 허용되지 않습니다." }
      else
        { is_valid := true, is_dangerous := false, confidence := (4/5 : ℚ)
          reason := some "규칙 기반 검증 통과", suggestions := []
          error_message := none }

/-!
## Table permissions (`app/auth/permissions.py`)

`extract_tables_from_query` scans the upper-cased SQL with the regexes
`\bKW\s+([a-zA-Z_][a-zA-Z0-9_]*)` for `KW` in `FROM`, `JOIN`, `INTO`,
`UPDATE`, slicing the captured identifier out of the original string.  The
embedding scans the original character list directly, comparing upper-cased
characters against the keyword; `re.finditer` semantics (leftmost match,
scanning resumes after each match end) are reproduced, with the character
before the current position carried along for the `\b` test.
-/

def isIdentStart (c : Char) : Bool := c.isAlpha || c = '_'

def isIdentChar (c : Char) : Bool := c.isAlpha || c.isDigit || c = '_'

/-- Try the pattern `\bKW\s+([a-zA-Z_][a-zA-Z0-9_]*)` at the head of `l`
(`prev` is the character before `l`, for the word-boundary test).  On success
return the captured identifier and the rest of the input after the match. -/
def matchTableRef (kw : List Char) (prev : Option Char) (l : List Char) :
    Option (List Char × List Char) :=
  let boundary := match prev with
    | none => true
    | some c => !isWordChar c
  if boundary && pyUpper (l.take kw.length) = kw then
    let afterKw := l.drop kw.length
    let ws := afterKw.takeWhile pyIsSpace
    let afterWs := afterKw.dropWhile pyIsSpace
    if ws.isEmpty then none
    else
      match afterWs with
      | [] => none
      | c :: rest =>
        if isIdentStart c then
          some (c :: rest.takeWhile isIdentChar, rest.dropWhile isIdentChar)
        else none
  else none

/-- Source `re.finditer` over the whole input for one keyword pattern, collecting the
captured identifiers.  Fuelled (each step consumes at least one character). -/
def scanTablesFuel (kw : List Char) : Nat → Option Char → List Char → List (List Char)
  | 0, _, _ => []
  | _ + 1, _, [] => []
  | fuel + 1, prev, c :: rest =>
    match matchTableRef kw prev (c :: rest) with
    | some (ident, remaining) =>
      ident :: scanTablesFuel kw fuel (some (ident.getLastD c)) remaining
    | none => scanTablesFuel kw fuel (some c) rest

def scanTables (kw : String) (l : List Char) : List (List Char) :=
  scanTablesFuel kw.data (l.length + 1) none l

/-- Source `extract_tables_from_query`: collect, strip, lower and set-insert the
captures of the four patterns (Python set iteration order is unspecified;
insertion order is used — callers only rely on membership and emptiness). -/
def extract_tables_from_query (sql_query : String) : List String :=
  let raws := scanTables "FROM" sql_query.data ++ scanTables "JOIN" sql_query.data
    ++ scanTables "INTO" sql_query.data ++ scanTables "UPDATE" sql_query.data
  dedupKeepFirst (raws.map (fun t => String.mk (pyLower (pyStrip t))))

/-- Source `validate_query_permission(user, sql_query)`.  The awaited
`check_tables_permission(user, tables, permission_type)` call (a database
lookup over the user's roles) is the `check_tables` parameter, returning the
per-table permission dict as an association list in iteration order. -/
def validate_query_permission
    (check_tables : List String → String → List (String × Bool))
    (sql_query : String) : Bool × List String :=
  let tables := extract_tables_from_query sql_query
  if tables.isEmpty then (true, [])
  else
    let sql_upper := pyUpper (pyStrip sql_query.data)
    let permission_type :=
      if "INSERT".data.isPrefixOf sql_upper || "UPDATE".data.isPrefixOf sql_upper
          || "DELETE".data.isPrefixOf sql_upper then "write" else "read"
    let permissions := check_tables tables permission_type
    let unauthorized := (permissions.filter (fun tb => !tb.2)).map (fun tb => tb.1)
    (unauthorized.isEmpty, unauthorized)

/-!
## Workflow graph (`app/agent/graph.py`)

The conditional-edge functions read individual channels of the LangGraph state
with `state.get(key)` / `state.get(key, default)`.  `AgentChannels` models the
channel reads: a field is `none` when the key is absent from the state dict
(then `.get` yields the default), `some v` when present with value `v`.
-/

/-- Source `MAX_VALIDATION_RETRIES` (`query_validation.py` line 33). -/
def MAX_VALIDATION_RETRIES : Nat := 3

structure AgentChannels where
  execution_error : Option String := none
  generated_query : Option String := none
  is_query_valid : Option Bool := none
  generation_attempt : Option Nat := none
  user_approved : Option Bool := none

inductive RouteAfterValidation where
  | confirm | regenerate | format_error
deriving DecidableEq, Repr

/-- Source `should_continue_after_validation`. -/
def should_continue_after_validation (s : AgentChannels) : RouteAfterValidation :=
  let is_valid := s.is_query_valid.getD false
  let attempt := s.generation_attempt.getD 0
  if is_valid then .confirm
  else if attempt < MAX_VALIDATION_RETRIES then .regenerate
  else .format_error

inductive RouteAfterConfirmation where
  | execute | revalidate | format_cancelled
deriving DecidableEq, Repr

/-- Source `should_continue_after_confirmation`.  `user_approved is True` and
`is_query_valid is False` are identity tests against the singletons, so an
absent key (`None`) falls through exactly as in the source. -/
def should_continue_after_confirmation (s : AgentChannels) : RouteAfterConfirmation :=
  if s.user_approved = some true then
    if s.is_query_valid = some false then .revalidate
    else .execute
  else .format_cancelled

/-!
## User confirmation (`app/agent/nodes/user_confirmation.py`)
-/

/-- The resume payload: a bare bool, a dict with `approved` /
`modified_query`, or anything else (the logged-and-refused branch). -/
inductive UserResponse where
  | plain (approved : Bool)
  | structured (approved : Bool) (modified_query : Option String)
  | unexpected
deriving DecidableEq

/-- Python truthiness of an optional string (`if modified_query:`). -/
def pyTruthyStr : Option String → Bool
  | some s => !s.isEmpty
  | none => false

/-- Source `handle_user_response`: the update dict returned to LangGraph, with `none`
for keys the branch does not set. -/
def handle_user_response (response : UserResponse) : AgentChannels :=
  let parsed : Bool × Option String :=
    match response with
    | .plain b => (b, none)
    | .structured a m => (a, m)
    | .unexpected => (false, none)
  if parsed.1 then
    if pyTruthyStr parsed.2 then
      { user_approved := some true
        generated_query := parsed.2
        is_query_valid := some false }
    else
      { user_approved := some true }
  else
    { user_approved := some false
      execution_error := some "사용자가 쿼리 실행을 취소했습니다." }

/-!
## Validation pipeline and node (`app/agent/nodes/query_validation.py`)

`validate_query_pipeline` runs the keyword validator first, then the schema
validator, then the semantic layers.  The `SchemaValidator` and
`SemanticValidator` classes and `quick_pattern_check` are imported by the
node but are not present in the source tree, so their results enter the
embedding as parameters; the pipeline's short-circuit control flow is from the
source.  The `details` dict of the pipeline result (a diagnostic payload) is
not modelled; nothing checked reads it.
-/

/-- Source `SchemaValidationResult` dataclass (`app/validation/schema_validator.py`). -/
structure SchemaValidationResult where
  is_valid : Bool
  invalid_tables : List String
  invalid_columns : List String
  referenced_tables : List String
  error_message : Option String

inductive ValidationLayer where
  | keyword | schema | semantic
deriving DecidableEq, Repr

/-- Source `ValidationPipelineResult` (without the `details` payload). -/
structure ValidationPipelineResult where
  is_valid : Bool
  blocked_at_layer : Option ValidationLayer
  error_message : String

/-- Source `validate_query_pipeline(query, schema, llm, skip_semantic)`. -/
def validate_query_pipeline (query : String)
    (schemaResult : SchemaValidationResult)
    (patternCheck : Bool × String)
    (semanticResult : SemanticValidationResult)
    (skip_semantic : Bool) (hasLLM : Bool) : ValidationPipelineResult :=
  let keyword_result := KeywordValidator.validate query
  if !keyword_result.is_valid then
    ⟨false, some .keyword, keyword_result.error_message⟩
  else if !schemaResult.is_valid then
    ⟨false, some .schema, schemaResult.error_message.getD ""⟩
  else if skip_semantic || !hasLLM then
    ⟨true, none, ""⟩
  else if !patternCheck.1 then
    ⟨false, some .semantic, "보안상의 이유로 이 쿼리는 실행할 수 없습니다."⟩
  else if !semanticResult.is_valid then
    ⟨false, some .semantic, semanticResult.error_message.getD ""⟩
  else
    ⟨true, none, ""⟩

/-- The state update computed by `query_validation_node` once the pipeline
result is in hand (lines 205-247). -/
structure ValidationNodeUpdate where
  is_query_valid : Bool
  validation_errors : List String
  generation_attempt : Nat

/-- The regeneration hint appended while retries remain.  The schema hint
interpolates the `details` dict in the source; the dict repr is not modelled. -/
def retryHint : Option ValidationLayer → List String
  | some .keyword => ["힌트: SELECT 문만 사용하여 쿼리를 생성하세요."]
  | some .schema => ["힌트: 유효한 테이블과 컬럼을 사용하세요. 오류: "]
  | some .semantic => ["힌트: 더 간단하고 명확한 쿼리를 생성하세요."]
  | none => []

/-- Source `query_validation_node` after `validate_query_pipeline` returns: on
success run the accessible-tables check, on failure record the errors and
increment the attempt counter — identically for every blocked layer. -/
def query_validation_node_update (result : ValidationPipelineResult)
    (generation_attempt : Nat) (accessible_tables : List String)
    (generated_query : String) : ValidationNodeUpdate :=
  if result.is_valid then
    if !accessible_tables.isEmpty then
      let referenced_tables := extract_tables_from_query generated_query
      let accessible_lower := accessible_tables.map (fun t => String.mk (pyLower t.data))
      let unauthorized := referenced_tables.filter
        (fun t => !accessible_lower.contains (String.mk (pyLower t.data)))
      if !unauthorized.isEmpty then
        ⟨false,
         ["접근 권한이 없는 테이블이 포함되어 있습니다: " ++ String.intercalate ", " unauthorized],
         generation_attempt⟩
      else ⟨true, [], generation_attempt⟩
    else ⟨true, [], generation_attempt⟩
  else
    let error_messages := [result.error_message] ++
      (if generation_attempt < MAX_VALIDATION_RETRIES then
        retryHint result.blocked_at_layer
      else [])
    ⟨false, error_messages, generation_attempt + 1⟩

/-!
## Schema retrieval (`app/agent/nodes/schema_retrieval.py`)

Entities from `app/models/entities.py`; the `last_updated_at` timestamp is
carried as an opaque number.  `await get_database_schema()` — the only
operation in the node's `try` block that can raise — is an `Except` parameter.
-/

structure ForeignKeyInfo where
  referenced_table : String
  referenced_column : String

structure SchemaColumnInfo where
  name : String
  data_type : String
  is_nullable : Bool
  description : Option String := none
  default_value : Option String := none
  is_primary_key : Bool := false
  foreign_key_reference : Option ForeignKeyInfo := none

structure TableInfo where
  name : String
  description : Option String := none
  columns : List SchemaColumnInfo := []
  estimated_row_count : Nat := 0

structure DatabaseSchema where
  version : String := ""
  last_updated_at : Nat
  tables : List TableInfo := []

/-- Source `filter_schema_by_accessible_tables`: empty accessible list yields an
empty schema; otherwise keep the tables whose lower-cased name occurs among
the lower-cased accessible names. -/
def filter_schema_by_accessible_tables (schema : DatabaseSchema)
    (accessible_tables : List String) : DatabaseSchema :=
  if accessible_tables.isEmpty then
    { last_updated_at := schema.last_updated_at, tables := [] }
  else
    { last_updated_at := schema.last_updated_at
      tables := schema.tables.filter (fun t =>
        (accessible_tables.map (fun a => String.mk (pyLower a.data))).contains
          (String.mk (pyLower t.name.data))) }

/-- The ` - description` suffix of a table header (`if table.description`,
Python truthiness: `None` and `""` both yield no suffix). -/
def tableDescSuffix (t : TableInfo) : String :=
  match t.description with
  | some d => if d.isEmpty then "" else " - " ++ d
  | none => ""

/-- One markdown row of `format_schema_for_llm`'s column table. -/
def formatColumnLine (col : SchemaColumnInfo) : String :=
  let nullable := if col.is_nullable then "예" else "아니오"
  let pk_marker := if col.is_primary_key then " (PK)" else ""
  let fk_marker := match col.foreign_key_reference with
    | some fk => " → " ++ fk.referenced_table ++ "." ++ fk.referenced_column
    | none => ""
  let desc := col.description.getD ""
  "| " ++ col.name ++ pk_marker ++ fk_marker ++ " | " ++ col.data_type
    ++ " | " ++ nullable ++ " | " ++ desc ++ " |"

/-- Source `format_schema_for_llm` (`app/database/schema.py`). -/
def format_schema_for_llm (schema : DatabaseSchema) : String :=
  let tableLines := fun (t : TableInfo) =>
    ["### 테이블: " ++ t.name ++ tableDescSuffix t,
     "| 컬럼명 | 타입 | NULL 허용 | 설명 |",
     "|--------|------|-----------|------|"]
    ++ t.columns.map formatColumnLine ++ [""]
  String.intercalate "\n"
    (["## 데이터베이스 스키마", ""] ++ (schema.tables.map tableLines).flatten)

/-- The update dict returned by `schema_retrieval_node`; `execution_error =
none` models the absence of the `execution` key. -/
structure SchemaRetrievalUpdate where
  database_schema : String
  relevant_tables : List String
  execution_error : Option String

/-- Source `schema_retrieval_node`: filter only when `accessible_tables` is truthy
(non-empty), error out only when it is truthy and filtering left no tables,
otherwise format the (possibly unfiltered) schema for the generator. -/
def schema_retrieval_node (schemaResult : Except String DatabaseSchema)
    (accessible_tables : List String) : SchemaRetrievalUpdate :=
  match schemaResult with
  | .error e => ⟨"", [], some ("스키마를 불러올 수 없습니다: " ++ e)⟩
  | .ok schema0 =>
    let schema := if !accessible_tables.isEmpty then
        filter_schema_by_accessible_tables schema0 accessible_tables
      else schema0
    if !accessible_tables.isEmpty && schema.tables.length == 0 then
      ⟨"", [], some "접근 권한이 없습니다. 요청하신 데이터에 대한 조회 권한이 부여되지 않았습니다."⟩
    else
      ⟨format_schema_for_llm schema, schema.tables.map (fun t => t.name), none⟩

/-!
## Checked properties and supporting lemmas
-/

theorem insertUnique_ne_nil [BEq α] (xs : List α) (x : α) :
    insertUnique xs x ≠ [] := by
  unfold insertUnique
  split
  · rename_i h
    intro hnil
    subst hnil
    simp [List.contains] at h
  · simp

theorem foldl_insertUnique_ne_nil [BEq α] (l : List α) (acc : List α)
    (hacc : acc ≠ []) : l.foldl insertUnique acc ≠ [] := by
  induction l generalizing acc with
  | nil => simpa using hacc
  | cons x xs ih =>
    simp only [List.foldl_cons]
    exact ih (insertUnique acc x) (insertUnique_ne_nil acc x)

theorem dedupKeepFirst_ne_nil [BEq α] (l : List α) (h : l ≠ []) :
    dedupKeepFirst l ≠ [] := by
  cases l with
  | nil => exact absurd rfl h
  | cons x xs =>
    unfold dedupKeepFirst
    simp only [List.foldl_cons]
    exact foldl_insertUnique_ne_nil xs (insertUnique [] x) (insertUnique_ne_nil [] x)

theorem afterBlockClose_length_le :
    ∀ (l r : List Char), afterBlockClose l = some r → r.length ≤ l.length := by
  intro l
  induction l with
  | nil => intro r h; simp [afterBlockClose] at h
  | cons c rest ih =>
    intro r h
    unfold afterBlockClose at h
    split at h
    · injection h with hr
      subst hr
      have : rest.tail.length ≤ rest.length := by
        cases rest <;> simp
      simp only [List.length_cons]
      omega
    · exact le_trans (ih r h) (by simp)

/-- C2 — the claim as written: the keyword validator is said to strip quoted
string literals, so `SELECT * FROM logs WHERE msg = 'please DELETE this'`
should pass.  It does not: the validator returns `is_valid = false`. -/
theorem C2_counterexample :
    (KeywordValidator.validate
      "SELECT * FROM logs WHERE msg = 'please DELETE this'").is_valid = false := by
  decide

/-- C2 amended: the validator strips comments but not quoted string literals;
whenever the comment-stripped query still contains a word token equal (up to
case) to a denylisted keyword — even inside a quoted literal — `validate`
returns `is_valid = false`. -/
theorem C2_literal_keyword_rejected (query : String)
    (h : dangerousTokens (remove_comments query.data) ≠ []) :
    (KeywordValidator.validate query).is_valid = false := by
  unfold KeywordValidator.validate
  split
  · rfl
  · have hne : (dedupKeepFirst
        ((dangerousTokens (remove_comments query.data)).map
          (fun t => String.mk (pyUpper t)))) ≠ [] := by
      apply dedupKeepFirst_ne_nil
      simpa using h
    simp only []
    split
    · rename_i hempty
      exact absurd (List.isEmpty_iff.mp hempty) hne
    · rfl

/-- C2 amended, witness: at the concrete literal-bearing query the hypothesis
holds and the validator rejects. -/
theorem C2_literal_keyword_rejected_witness :
    (KeywordValidator.validate
      "SELECT id FROM logs WHERE msg = 'DELETE me'").is_valid = false :=
  C2_literal_keyword_rejected _ (by decide)

/-- C8: when `execute_safe_query` succeeds, `total_row_count` is the number of
fetched rows (pre-truncation), at most `maxRowLimit` rows are returned with
`returned_row_count` equal to the returned list's length, and `is_truncated`
holds exactly when the fetched count strictly exceeds the limit. -/
theorem C8_truncation_counts {Row : Type} (sanitize : Row → Row)
    (query : String) (fetched : List Row) (maxRowLimit : Nat)
    (r : QueryResultM Row)
    (h : execute_safe_query sanitize query fetched maxRowLimit = .ok r) :
    r.total_row_count = fetched.length ∧
    r.returned_row_count = r.rows.length ∧
    r.rows.length ≤ maxRowLimit ∧
    (r.is_truncated = true ↔ fetched.length > maxRowLimit) := by
  unfold execute_safe_query at h
  split at h
  · exact Except.noConfusion h
  · dsimp only at h
    split at h
    · injection h with hr
      subst hr
      unfold processFetchedRows
      by_cases hgt : fetched.length > maxRowLimit
      · simp [hgt, List.length_take]
      · simp [hgt]
        omega
    · exact Except.noConfusion h

/-- C8 witness: three rows fetched against a limit of two — the total stays 3,
two rows come back, and the result is marked truncated. -/
theorem C8_truncation_counts_witness :
    ∃ r : QueryResultM Nat,
      execute_safe_query id "SELECT id FROM orders" [10, 20, 30] 2 = .ok r ∧
      r.total_row_count = 3 ∧
      r.returned_row_count = r.rows.length ∧
      r.rows.length ≤ 2 ∧
      (r.is_truncated = true ↔ 3 > 2) := by
  refine ⟨processFetchedRows id [10, 20, 30] 2, rfl, ?_⟩
  have := C8_truncation_counts id "SELECT id FROM orders" [10, 20, 30] 2
    (processFetchedRows id [10, 20, 30] 2) rfl
  simpa using this

/-- C10: `execute_safe_query` raises `DangerousQueryError` for every query
whose stripped upper-cased text does not start with `SELECT`; in particular the
CTE query `cteQuery` passes `KeywordValidator.validate` yet can never be
executed. -/
theorem C10_non_select_never_executes :
    (∀ (Row : Type) (sanitize : Row → Row) (query : String)
        (fetched : List Row) (maxRowLimit : Nat),
      "SELECT".data.isPrefixOf (pyUpper (pyStrip query.data)) = false →
      ∃ kw, execute_safe_query sanitize query fetched maxRowLimit =
        .error (.dangerousQuery kw)) ∧
    (KeywordValidator.validate cteQuery).is_valid = true ∧
    execute_safe_query (id : Nat → Nat) cteQuery [] 100 =
      .error (.dangerousQuery "NON_SELECT") := by
  refine ⟨?_, by decide, rfl⟩
  intro Row sanitize query fetched maxRowLimit h
  unfold execute_safe_query
  cases hq : quick_safety_check query with
  | error e =>
    cases e with
    | dangerousQuery kw => exact ⟨kw, rfl⟩
  | ok u =>
    cases u
    refine ⟨"NON_SELECT", ?_⟩
    simp [h]

/-- C10 witness: a query starting with `UPDATE` satisfies the hypothesis and
is rejected by the executor pre-checks. -/
theorem C10_non_select_never_executes_witness :
    ∃ kw, execute_safe_query (id : Nat → Nat) "UPDATE orders SET x = 1" [] 5 =
      .error (.dangerousQuery kw) :=
  C10_non_select_never_executes.1 Nat id "UPDATE orders SET x = 1" [] 5 (by decide)

/-- C7: whenever the LLM call inside semantic validation raises, the result is
fail-open — `is_valid = true` and `is_dangerous = false` — for every query,
question and error. -/
theorem C7_semantic_fail_open (query : String) (user_question : Option String)
    (e : String) :
    (validate_query_semantic query user_question (.error e)).is_valid = true ∧
    (validate_query_semantic query user_question (.error e)).is_dangerous = false :=
  ⟨rfl, rfl⟩

/-- C6 — the claim as written says the pre-filter rejects every SQL string
containing the injection marker `OR 1=1`.  It does not: this query with
`OR 1=1` passes the pre-filter with `is_valid = true`. -/
theorem C6_counterexample :
    (validate_query_semantic_sync
      "SELECT * FROM items WHERE id = 1 OR 1=1" none).is_valid = true := by
  rfl

/-- C6 amended: the pre-filter rejects exactly its three rule families — a
system-catalog substring in the upper-cased query, a sensitive-column trigger
(any mention alongside a `SELECT`, not only the projection list), or more than
one semicolon.  It has no checks for `OR 1=1`, dangling `--`, or a single
trailing semicolon followed by further statement text. -/
theorem C6_pre_filter_rules (query : String) (uq : Option String)
    (h : (∃ p ∈ system_table_patterns, containsSubstr p.data (pyUpper query.data)) ∨
         (∃ col ∈ sensitive_columns, sensitiveHit (pyUpper query.data) col) ∨
         query.data.count ';' > 1) :
    (validate_query_semantic_sync query uq).is_valid = false := by
  unfold validate_query_semantic_sync
  dsimp only
  cases hsys : system_table_patterns.find?
      (fun p => containsSubstr p.data (pyUpper query.data)) with
  | some p => rfl
  | none =>
    cases hsen : sensitive_columns.find?
        (fun col => sensitiveHit (pyUpper query.data) col) with
    | some col => rfl
    | none =>
      have hsys' := List.find?_eq_none.mp hsys
      have hsen' := List.find?_eq_none.mp hsen
      rcases h with ⟨p, hp, hc⟩ | ⟨col, hcol, hhit⟩ | hcount
      · exact absurd hc (by simpa using hsys' p hp)
      · exact absurd hhit (by simpa using hsen' col hcol)
      · simp [hcount]

/-- C6 amended, witness: a `pg_catalog` reference, a `password` projection and
a double-semicolon injection are each rejected by the pre-filter. -/
theorem C6_pre_filter_rules_witness :
    (validate_query_semantic_sync
      "SELECT relname FROM pg_catalog.pg_class" none).is_valid = false ∧
    (validate_query_semantic_sync
      "SELECT password FROM users" none).is_valid = false ∧
    (validate_query_semantic_sync
      "SELECT 1; DROP TABLE users; --" none).is_valid = false := by
  refine ⟨?_, ?_, ?_⟩
  · exact C6_pre_filter_rules _ none (Or.inl ⟨"PG_CATALOG", by decide, by decide⟩)
  · exact C6_pre_filter_rules _ none
      (Or.inr (Or.inl ⟨"PASSWORD", by decide, by decide⟩))
  · exact C6_pre_filter_rules _ none (Or.inr (Or.inr (by decide)))

/-- C9: when table extraction finds nothing, `validate_query_permission`
returns `(true, [])` without consulting the permission store — zero-extraction
is fail-open, for every permission oracle. -/
theorem C9_zero_extraction_fail_open
    (check_tables : List String → String → List (String × Bool))
    (sql_query : String)
    (h : extract_tables_from_query sql_query = []) :
    validate_query_permission check_tables sql_query = (true, []) := by
  unfold validate_query_permission
  simp [h]

/-- C9 witness: `SELECT 1` yields no table captures, so permission validation
passes even for an oracle that denies everything. -/
theorem C9_zero_extraction_fail_open_witness :
    validate_query_permission
      (fun tables _ => tables.map (fun t => (t, false))) "SELECT 1" = (true, []) :=
  C9_zero_extraction_fail_open _ "SELECT 1" (by decide)

/-- C4: with `is_query_valid = false`, the post-validation router goes to
error formatting when `generation_attempt` equals `MAX_VALIDATION_RETRIES` and
to regeneration whenever it is strictly below; with `is_query_valid = true` it
goes to confirmation. -/
theorem C4_validation_router_boundary (s : AgentChannels) :
    (s.is_query_valid = some true →
      should_continue_after_validation s = .confirm) ∧
    (s.is_query_valid = some false →
      (s.generation_attempt = some MAX_VALIDATION_RETRIES →
        should_continue_after_validation s = .format_error) ∧
      (∀ a, s.generation_attempt = some a → a < MAX_VALIDATION_RETRIES →
        should_continue_after_validation s = .regenerate)) := by
  unfold should_continue_after_validation
  refine ⟨fun hv => by simp [hv], fun hv => ⟨fun ha => ?_, fun a ha hlt => ?_⟩⟩
  · simp [hv, ha]
  · simp [hv, ha, hlt]

/-- C4 witness: the three routing outcomes at concrete channel values —
valid, failed at the retry bound (3), failed one below the bound (2). -/
theorem C4_validation_router_boundary_witness :
    should_continue_after_validation
      { is_query_valid := some true } = .confirm ∧
    should_continue_after_validation
      { is_query_valid := some false, generation_attempt := some 3 } = .format_error ∧
    should_continue_after_validation
      { is_query_valid := some false, generation_attempt := some 2 } = .regenerate := by
  refine ⟨(C4_validation_router_boundary _).1 rfl, ?_, ?_⟩
  · exact ((C4_validation_router_boundary _).2 rfl).1 rfl
  · exact ((C4_validation_router_boundary _).2 rfl).2 2 rfl (by decide)

/-- C5: approving with a (non-empty) `modified_query` replaces the generated
query, resets `is_query_valid` to `false`, and the post-confirmation router —
run on the updated channels — goes to revalidation; and the router reaches
`execute` exactly when `user_approved` is `True` and `is_query_valid` is not
`False`. -/
theorem C5_modified_query_revalidates :
    (∀ m : String, m ≠ "" →
      (handle_user_response (.structured true (some m))).is_query_valid
          = some false ∧
      (handle_user_response (.structured true (some m))).generated_query
          = some m ∧
      should_continue_after_confirmation
        (handle_user_response (.structured true (some m))) = .revalidate) ∧
    (∀ s : AgentChannels,
      should_continue_after_confirmation s = .execute ↔
        (s.user_approved = some true ∧ s.is_query_valid ≠ some false)) := by
  constructor
  · intro m hm
    have hne : m.isEmpty = false := by
      cases he : m.isEmpty
      · rfl
      · exact absurd ((String.isEmpty_iff m).mp he) hm
    simp [handle_user_response, pyTruthyStr, hne, should_continue_after_confirmation]
  · intro s
    unfold should_continue_after_confirmation
    by_cases hap : s.user_approved = some true
    · by_cases hval : s.is_query_valid = some false
      · simp [hap, hval]
      · simp [hap, hval]
    · simp [hap]

/-- C5 witness: a concrete approved response carrying a modification. -/
theorem C5_modified_query_revalidates_witness :
    (handle_user_response (.structured true (some "SELECT 2"))).is_query_valid
        = some false ∧
    (handle_user_response (.structured true (some "SELECT 2"))).generated_query
        = some "SELECT 2" ∧
    should_continue_after_confirmation
      (handle_user_response (.structured true (some "SELECT 2"))) = .revalidate :=
  C5_modified_query_revalidates.1 "SELECT 2" (by decide)

/-- C3 — the claim as written says a keyword-layer failure is terminal (never
routed back to generation).  It is not: `DELETE FROM users` is blocked at the
keyword layer, yet after the node update (attempt 0 → 1) the router sends the
workflow back to regeneration. -/
theorem C3_counterexample :
    (validate_query_pipeline "DELETE FROM users"
        ⟨true, [], [], [], none⟩ (true, "") ⟨true, false, 0, none, [], none⟩
        false true).blocked_at_layer = some ValidationLayer.keyword ∧
    should_continue_after_validation
      { is_query_valid := some (query_validation_node_update
          (validate_query_pipeline "DELETE FROM users"
            ⟨true, [], [], [], none⟩ (true, "") ⟨true, false, 0, none, [], none⟩
            false true) 0 [] "DELETE FROM users").is_query_valid
        generation_attempt := some (query_validation_node_update
          (validate_query_pipeline "DELETE FROM users"
            ⟨true, [], [], [], none⟩ (true, "") ⟨true, false, 0, none, [], none⟩
            false true) 0 [] "DELETE FROM users").generation_attempt }
      = .regenerate := by
  constructor
  · rfl
  · rfl

/-- C3 amended: validation failures at every layer are handled identically —
the node marks the query invalid and increments the attempt counter regardless
of `blocked_at_layer`, and whenever the incremented counter is still below
`MAX_VALIDATION_RETRIES` the router returns to query generation; only the
attempt bound, never the layer, makes a failure terminal. -/
theorem C3_all_layers_retried (result : ValidationPipelineResult)
    (generation_attempt : Nat) (accessible_tables : List String)
    (generated_query : String) (h : result.is_valid = false) :
    (query_validation_node_update result generation_attempt accessible_tables
        generated_query).is_query_valid = false ∧
    (query_validation_node_update result generation_attempt accessible_tables
        generated_query).generation_attempt = generation_attempt + 1 ∧
    (generation_attempt + 1 < MAX_VALIDATION_RETRIES →
      should_continue_after_validation
        { is_query_valid := some (query_validation_node_update result
            generation_attempt accessible_tables generated_query).is_query_valid
          generation_attempt := some (query_validation_node_update result
            generation_attempt accessible_tables generated_query).generation_attempt }
        = .regenerate) := by
  unfold query_validation_node_update
  refine ⟨by simp [h], by simp [h], fun hlt => ?_⟩
  simp only [h]
  simp [should_continue_after_validation, hlt]

/-- C3 amended, witness: the keyword-layer failure on `DELETE FROM users` at
attempt 0 satisfies the hypothesis; the failure is marked invalid, the counter
becomes 1, and the route is regeneration. -/
theorem C3_all_layers_retried_witness :
    (query_validation_node_update
        (validate_query_pipeline "DELETE FROM users"
          ⟨true, [], [], [], none⟩ (true, "") ⟨true, false, 0, none, [], none⟩
          false true) 0 ["orders"] "DELETE FROM users").is_query_valid = false ∧
    (query_validation_node_update
        (validate_query_pipeline "DELETE FROM users"
          ⟨true, [], [], [], none⟩ (true, "") ⟨true, false, 0, none, [], none⟩
          false true) 0 ["orders"] "DELETE FROM users").generation_attempt = 0 + 1 ∧
    (0 + 1 < MAX_VALIDATION_RETRIES →
      should_continue_after_validation
        { is_query_valid := some (query_validation_node_update
            (validate_query_pipeline "DELETE FROM users"
              ⟨true, [], [], [], none⟩ (true, "") ⟨true, false, 0, none, [], none⟩
              false true) 0 ["orders"] "DELETE FROM users").is_query_valid
          generation_attempt := some (query_validation_node_update
            (validate_query_pipeline "DELETE FROM users"
              ⟨true, [], [], [], none⟩ (true, "") ⟨true, false, 0, none, [], none⟩
              false true) 0 ["orders"] "DELETE FROM users").generation_attempt }
        = .regenerate) :=
  C3_all_layers_retried _ 0 ["orders"] "DELETE FROM users" (by decide)

/-- C1 — the claim as written: with `accessible_tables = []` the node should
return a permission-denied `execution_error`.  It does not: the empty list is
falsy, the filter and the error check are both skipped, and the full schema
(here one table, `orders`) proceeds toward generation with no error. -/
theorem C1_counterexample :
    (schema_retrieval_node
      (.ok { last_updated_at := 0
             tables := [{ name := "orders" }] }) []).execution_error = none ∧
    (schema_retrieval_node
      (.ok { last_updated_at := 0
             tables := [{ name := "orders" }] }) []).relevant_tables = ["orders"] := by
  exact ⟨rfl, rfl⟩

/-- C1 amended: the permission-denied short-circuit fires exactly for a
non-empty `accessible_tables` whose filtered schema has no tables; an empty
`accessible_tables` skips filtering entirely and the full schema proceeds to
generation with no execution error. -/
theorem C1_permission_denied_boundary :
    (∀ (schema : DatabaseSchema) (acc : List String), acc ≠ [] →
      (filter_schema_by_accessible_tables schema acc).tables = [] →
      (schema_retrieval_node (.ok schema) acc).execution_error ≠ none) ∧
    (∀ schema : DatabaseSchema,
      (schema_retrieval_node (.ok schema) []).execution_error = none ∧
      (schema_retrieval_node (.ok schema) []).relevant_tables
        = schema.tables.map (fun t => t.name)) := by
  constructor
  · intro schema acc hacc hfilt
    have hne : acc.isEmpty = false := by
      cases acc with
      | nil => exact absurd rfl hacc
      | cons a as => rfl
    unfold schema_retrieval_node
    simp only [hne, Bool.not_false, if_pos rfl]
    simp [hfilt]
  · intro schema
    unfold schema_retrieval_node
    simp

/-- C1 amended, witness: `accessible_tables = ["shipments"]` filters a
one-table (`orders`) schema down to nothing, producing a permission error;
the same schema with empty `accessible_tables` sails through untouched. -/
theorem C1_permission_denied_boundary_witness :
    (schema_retrieval_node
      (.ok { last_updated_at := 5, tables := [{ name := "orders" }] })
      ["shipments"]).execution_error ≠ none ∧
    (schema_retrieval_node
      (.ok { last_updated_at := 5, tables := [{ name := "orders" }] })
      []).execution_error = none := by
  constructor
  · exact C1_permission_denied_boundary.1
      { last_updated_at := 5, tables := [{ name := "orders" }] }
      ["shipments"] (by decide) rfl
  · exact (C1_permission_denied_boundary.2
      { last_updated_at := 5, tables := [{ name := "orders" }] }).1

end Text2SQL
